import Mathlib

/-!
Shallow embedding of the tuio-rs TUIO 1.1 library (entities and kinematics,
OSC codec, client frame processing, server operations), translated from
`src/cursor.rs`, `src/object.rs`, `src/blob.rs`, `src/osc_encode_decode.rs`,
`src/client.rs` and `src/server.rs`.

Modelling conventions:
* `f32` values are modelled as rationals (`ℚ`); `f32::sqrt` as `Rat.sqrt`.
* `std::time::Duration` and monotonic instants are modelled as rationals
  measured in seconds; `Instant::elapsed()` is passed in as a `now` argument.
* `i32` values are modelled as `Int` (no operation in the modelled code gets
  near the `i32` range).
* `IndexMap` is modelled as an association list in insertion order:
  `entry(...).or_insert` appends at the end, `get_mut` rewrites in place,
  `remove` (indexmap's swap-remove) swaps with the last entry and pops.
* Rust panics (`unwrap` on a missing source entry, out-of-bounds argument
  indexing) are modelled by an explicit `panicked` / `none` result.
-/

/-- Rust `f32`, modelled as an exact rational. -/
abbrev F32 := ℚ

/-- The value of the 32-bit float constant `std::f32::consts::PI`
(bit pattern 0x40490FDB). -/
def f32_pi : F32 := 13176795 / 4194304

/-- Embeds `cursor.rs`: 2D point (named `Point`, aliased `Position` in `object.rs`). -/
structure Point where
  x : F32
  y : F32
deriving DecidableEq, Repr

abbrev Position := Point

/-- Embeds `Point::distance_from`: Euclidean distance. -/
def Point.distance_from (p : Point) (point : Point) : F32 :=
  let dx := p.x - point.x
  let dy := p.y - point.y
  Rat.sqrt (dx * dx + dy * dy)

/-- Embeds `cursor.rs`: 2D velocity. -/
structure Velocity where
  x : F32
  y : F32
deriving DecidableEq, Repr

/-- Embeds `Velocity::get_speed`: Euclidean norm. -/
def Velocity.get_speed (v : Velocity) : F32 :=
  Rat.sqrt (v.x * v.x + v.y * v.y)

/-- Embeds `cursor.rs`: entity motion state. -/
inductive State where
  | idle
  | added
  | accelerating
  | decelerating
  | rotating
  | stopped
  | removed
deriving DecidableEq, Repr

/-- Embeds `cursor.rs`: a TUIO cursor. -/
structure Cursor where
  session_id : Int
  time : F32
  path : List Point
  velocity : Velocity
  acceleration : F32
  state : State
deriving DecidableEq, Repr

/-- Embeds `Cursor::new`. -/
def Cursor.new (time : F32) (session_id : Int) (position : Point) : Cursor :=
  { session_id
    path := [position]
    velocity := ⟨0, 0⟩
    acceleration := 0
    time
    state := .added }

/-- The source reads the current position with `path.last().unwrap()`;
`path` is nonempty for every cursor the source constructs, so the
default is never read. -/
def Cursor.last_position (c : Cursor) : Point :=
  c.path.getLast?.getD ⟨0, 0⟩

def Cursor.get_x_position (c : Cursor) : F32 := c.last_position.x

def Cursor.get_y_position (c : Cursor) : F32 := c.last_position.y

/-- Embeds `Cursor::with_movement`. -/
def Cursor.with_movement (c : Cursor) (velocity : Velocity) (acceleration : F32) : Cursor :=
  { c with velocity, acceleration }

/-- Embeds `Cursor::update` (`cursor.rs` lines 104-131): derive velocity and
acceleration from the new position sample. -/
def Cursor.update (c : Cursor) (time : F32) (position : Point) : Cursor :=
  let delta_time := time - c.time
  let last_position := c.last_position
  let distance := position.distance_from last_position
  let delta_x := position.x - last_position.x
  let delta_y := position.y - last_position.y
  let last_speed := c.velocity.get_speed
  let speed := distance / delta_time
  let velocity : Velocity := ⟨delta_x / delta_time, delta_y / delta_time⟩
  let acceleration := (speed - last_speed) / delta_time
  { c with
    velocity
    acceleration
    path := c.path ++ [position]
    time
    state :=
      if acceleration > 0 then .accelerating
      else if acceleration < 0 then .decelerating
      else .stopped }

/-- The client-side `cursor.update_values(Point, Velocity, acceleration)`
call (`client.rs` line 358): push the position, overwrite velocity and
acceleration; the `time` field is not touched there. -/
def Cursor.client_update_values (c : Cursor) (position : Point)
    (velocity : Velocity) (acceleration : F32) : Cursor :=
  { c with path := c.path ++ [position], velocity, acceleration }

/-- Embeds `object.rs`: a TUIO object. -/
structure Object where
  session_id : Int
  class_id : Int
  time : F32
  position : Position
  angle : F32
  velocity : Velocity
  rotation_speed : F32
  acceleration : F32
  rotation_acceleration : F32
deriving DecidableEq, Repr

/-- Embeds `Object::new`. -/
def Object.new (time : F32) (session_id : Int) (class_id : Int)
    (position : Position) (angle : F32) : Object :=
  { session_id
    class_id
    time
    position
    velocity := ⟨0, 0⟩
    acceleration := 0
    angle
    rotation_speed := 0
    rotation_acceleration := 0 }

/-- Embeds `Object::with_motion` (called `with_movement` at the client call site,
`client.rs` line 301): attach motion data. -/
def Object.with_movement (o : Object) (velocity : Velocity) (rotation_speed : F32)
    (acceleration : F32) (rotation_acceleration : F32) : Object :=
  { o with velocity, rotation_speed, acceleration, rotation_acceleration }

/-- Embeds `Object::update` (`object.rs` lines 115-141): derive velocity,
acceleration, rotation speed and rotation acceleration from the new
position/angle sample.  The angle difference is divided by `2 * PI`
(turns), with no wrap handling. -/
def Object.update (o : Object) (time : F32) (position : Position) (angle : F32) : Object :=
  let delta_time := time - o.time
  let distance := position.distance_from o.position
  let delta_x := position.x - o.position.x
  let delta_y := position.y - o.position.y
  let last_speed := o.velocity.get_speed
  let speed := distance / delta_time
  let velocity : Velocity := ⟨delta_x / delta_time, delta_y / delta_time⟩
  let acceleration := (speed - last_speed) / delta_time
  let delta_turn := (angle - o.angle) / (2 * f32_pi)
  let rotation_speed := delta_turn / delta_time
  let rotation_acceleration := (rotation_speed - o.rotation_speed) / delta_time
  { o with
    velocity
    acceleration
    position
    angle
    rotation_speed
    rotation_acceleration
    time }

/-- The client-side `object.update_values(class_id, Point, angle, Velocity,
angular_speed, acceleration, angular_acceleration)` call (`client.rs`
line 297): overwrite the reported fields; `time` is not touched there. -/
def Object.client_update_values (o : Object) (class_id : Int) (position : Position)
    (angle : F32) (velocity : Velocity) (rotation_speed : F32)
    (acceleration : F32) (rotation_acceleration : F32) : Object :=
  { o with class_id, position, angle, velocity, rotation_speed,
           acceleration, rotation_acceleration }

/-- Embeds `blob.rs`: a TUIO blob. -/
structure Blob where
  session_id : Int
  time : F32
  path : List Point
  velocity : Velocity
  acceleration : F32
  angle : F32
  angular_speed : F32
  angular_acceleration : F32
  width : F32
  height : F32
  area : F32
  state : State
deriving DecidableEq, Repr

/-- Embeds `Blob::new`. -/
def Blob.new (time : F32) (session_id : Int) (point : Point) (angle : F32)
    (width : F32) (height : F32) (area : F32) : Blob :=
  { session_id
    time
    path := [point]
    velocity := ⟨0, 0⟩
    acceleration := 0
    angle
    angular_speed := 0
    angular_acceleration := 0
    width
    height
    area
    state := .added }

def Blob.last_position (b : Blob) : Point :=
  b.path.getLast?.getD ⟨0, 0⟩

def Blob.get_x_position (b : Blob) : F32 := b.last_position.x

def Blob.get_y_position (b : Blob) : F32 := b.last_position.y

/-- Embeds `Blob::with_movement`. -/
def Blob.with_movement (b : Blob) (velocity : Velocity) (angular_speed : F32)
    (acceleration : F32) (angular_acceleration : F32) : Blob :=
  { b with velocity, angular_speed, acceleration, angular_acceleration }

/-- The client-side `blob.update_values(...)` call (`client.rs` line 419):
overwrite the reported fields; `time` is not touched there. -/
def Blob.client_update_values (b : Blob) (position : Point) (angle : F32)
    (width : F32) (height : F32) (area : F32) (velocity : Velocity)
    (angular_speed : F32) (acceleration : F32) (angular_acceleration : F32) : Blob :=
  { b with path := b.path ++ [position], angle, width, height, area,
           velocity, angular_speed, acceleration, angular_acceleration }

/-- The subset of `rosc::OscType` the library uses. -/
inductive OscType where
  | int (i : Int)
  | float (f : F32)
  | string (s : String)
deriving DecidableEq, Repr

/-- Embeds `rosc` projection `OscType::int()`. -/
def OscType.asInt : OscType → Option Int
  | .int i => some i
  | _ => none

/-- Embeds `rosc` projection `OscType::float()`. -/
def OscType.asFloat : OscType → Option F32
  | .float f => some f
  | _ => none

/-- Embeds `rosc` projection `OscType::string()`. -/
def OscType.asString : OscType → Option String
  | .string s => some s
  | _ => none

/-- Embeds `rosc::OscMessage`. -/
structure OscMessage where
  addr : String
  args : List OscType
deriving DecidableEq, Repr

/-- Embeds `rosc::OscPacket`: a message or a (timetagged) bundle of packets. -/
inductive OscPacket where
  | message (msg : OscMessage)
  | bundle (timetag : F32) (content : List OscPacket)
deriving Repr

/-- Embeds `rosc::OscBundle`. -/
structure OscBundle where
  timetag : F32
  content : List OscPacket
deriving Repr

/-- Embeds `errors.rs`: the TUIO error taxonomy. -/
inductive TuioError where
  | unknownAddress (msg : OscMessage)
  | unknownMessageType (msg : OscMessage)
  | emptyMessage (msg : OscMessage)
  | missingSource (msg : OscMessage)
  | missingArguments (msg : OscMessage)
  | wrongArgumentType (msg : OscMessage) (index : Nat)
  | incompleteBundle (bundle : OscBundle)
  | notABundle (packet : OscPacket)
deriving Repr

/-- Embeds `osc_encode_decode.rs`: decoded per-cursor `set` record. -/
structure CursorParams where
  session_id : Int
  x_pos : F32
  y_pos : F32
  x_vel : F32
  y_vel : F32
  acceleration : F32
deriving DecidableEq, Repr

/-- Embeds `osc_encode_decode.rs`: decoded per-object `set` record. -/
structure ObjectParams where
  session_id : Int
  class_id : Int
  x_pos : F32
  y_pos : F32
  angle : F32
  x_vel : F32
  y_vel : F32
  rotation_speed : F32
  acceleration : F32
  rotation_acceleration : F32
deriving DecidableEq, Repr

/-- Embeds `osc_encode_decode.rs`: decoded per-blob `set` record. -/
structure BlobParams where
  session_id : Int
  x_pos : F32
  y_pos : F32
  angle : F32
  width : F32
  height : F32
  area : F32
  x_vel : F32
  y_vel : F32
  rotation_speed : F32
  acceleration : F32
  rotation_acceleration : F32
deriving DecidableEq, Repr

/-- Embeds `osc_encode_decode.rs`: the `SetParams` tagged union. -/
inductive SetParams where
  | cursor (set : List CursorParams)
  | object (set : List ObjectParams)
  | blob (set : List BlobParams)
deriving DecidableEq, Repr

/-- Embeds `osc_encode_decode.rs`: `TuioBundleType` (default `Unknown`). -/
inductive TuioBundleType where
  | cursor
  | object
  | blob
  | unknown
deriving DecidableEq, Repr

/-- Embeds `osc_encode_decode.rs`: the decoded `TuioBundle`. -/
structure TuioBundle where
  tuio_type : TuioBundleType
  source : String
  alive : List Int
  set : Option SetParams
  fseq : Int
deriving DecidableEq, Repr

/-- Embeds `TuioBundle::default()`. -/
def TuioBundle.default : TuioBundle :=
  { tuio_type := .unknown, source := "", alive := [], set := none, fseq := 0 }

/-- Fallible indexing `args[i]` as the Rust `try_unwrap_*_args` helpers use
it: `Except.error none` stands for the index-out-of-bounds panic, and
`Except.error (some i)` for a wrong argument type at index `i`.  In the
decoder every call is guarded by an exact length check, so the panic case
is unreachable there; in `client.rs` the 2Dblb guard makes it reachable. -/
def argAt (args : List OscType) (i : Nat) : Except (Option Nat) OscType :=
  match args.get? i with
  | some a => .ok a
  | none => .error none

def argInt (args : List OscType) (i : Nat) : Except (Option Nat) Int := do
  match (← argAt args i).asInt with
  | some v => pure v
  | none => Except.error (some i)

def argFloat (args : List OscType) (i : Nat) : Except (Option Nat) F32 := do
  match (← argAt args i).asFloat with
  | some v => pure v
  | none => Except.error (some i)

/-- Embeds `try_unwrap_object_args` (`osc_encode_decode.rs` lines 313-326; duplicated
with a tuple result in `client.rs` lines 155-168). -/
def try_unwrap_object_args (args : List OscType) : Except (Option Nat) ObjectParams := do
  let session_id ← argInt args 1
  let class_id ← argInt args 2
  let x_pos ← argFloat args 3
  let y_pos ← argFloat args 4
  let angle ← argFloat args 5
  let x_vel ← argFloat args 6
  let y_vel ← argFloat args 7
  let rotation_speed ← argFloat args 8
  let acceleration ← argFloat args 9
  let rotation_acceleration ← argFloat args 10
  pure { session_id, class_id, x_pos, y_pos, angle, x_vel, y_vel,
         rotation_speed, acceleration, rotation_acceleration }

/-- Embeds `try_unwrap_cursor_args` (`osc_encode_decode.rs` lines 328-337; duplicated
in `client.rs` lines 170-179). -/
def try_unwrap_cursor_args (args : List OscType) : Except (Option Nat) CursorParams := do
  let session_id ← argInt args 1
  let x_pos ← argFloat args 2
  let y_pos ← argFloat args 3
  let x_vel ← argFloat args 4
  let y_vel ← argFloat args 5
  let acceleration ← argFloat args 6
  pure { session_id, x_pos, y_pos, x_vel, y_vel, acceleration }

/-- Embeds `try_unwrap_blob_args` (`osc_encode_decode.rs` lines 339-354; duplicated
in `client.rs` lines 181-196). -/
def try_unwrap_blob_args (args : List OscType) : Except (Option Nat) BlobParams := do
  let session_id ← argInt args 1
  let x_pos ← argFloat args 2
  let y_pos ← argFloat args 3
  let angle ← argFloat args 4
  let width ← argFloat args 5
  let height ← argFloat args 6
  let area ← argFloat args 7
  let x_vel ← argFloat args 8
  let y_vel ← argFloat args 9
  let rotation_speed ← argFloat args 10
  let acceleration ← argFloat args 11
  let rotation_acceleration ← argFloat args 12
  pure { session_id, x_pos, y_pos, angle, width, height, area, x_vel, y_vel,
         rotation_speed, acceleration, rotation_acceleration }

/-- Embeds `try_unwrap_source_name` (`osc_encode_decode.rs` lines 301-311). -/
def try_unwrap_source_name (message : OscMessage) : Except TuioError String :=
  match message.args.get? 1 with
  | some arg =>
    match arg.asString with
    | some source_name => .ok source_name
    | none => .error (.wrongArgumentType message 1)
  | none => .error (.missingSource message)

/-- The profile dispatch on `message.addr` in the decoder's `source` branch. -/
def profileOfAddr (addr : String) : Option TuioBundleType :=
  if addr = "/tuio/2Dobj" then some .object
  else if addr = "/tuio/2Dcur" then some .cursor
  else if addr = "/tuio/2Dblb" then some .blob
  else none

/-- The message loop of `RoscDecoder::decode_bundle`
(`osc_encode_decode.rs` lines 357-445): iterate the bundle's member
packets in order, ignoring nested bundles, dispatching on the first
argument of each message.  `orig` is the bundle being decoded (carried
only for the `IncompleteBundle` error payload). -/
def RoscDecoder.decodeLoop (orig : OscBundle) (acc : TuioBundle) :
    List OscPacket → Except TuioError TuioBundle
  | [] => .ok acc
  | .bundle _ _ :: rest => RoscDecoder.decodeLoop orig acc rest
  | .message m :: rest =>
    match m.args.head? with
    | some (.string arg) =>
      if arg = "source" then
        match profileOfAddr m.addr with
        | none => .error (.unknownAddress m)
        | some tuio_type =>
          match try_unwrap_source_name m with
          | .error e => .error e
          | .ok source =>
            RoscDecoder.decodeLoop orig { acc with tuio_type, source } rest
      else if arg = "alive" then
        RoscDecoder.decodeLoop orig
          { acc with alive := (m.args.drop 1).filterMap OscType.asInt } rest
      else if arg = "set" then
        let init : Except TuioError SetParams :=
          match acc.set with
          | some sp => .ok sp
          | none =>
            match acc.tuio_type with
            | .cursor => .ok (.cursor [])
            | .object => .ok (.object [])
            | .blob => .ok (.blob [])
            | .unknown => .error (.incompleteBundle orig)
        match init with
        | .error e => .error e
        | .ok (.object set) =>
          if m.args.length = 11 then
            match try_unwrap_object_args m.args with
            | .ok params =>
              RoscDecoder.decodeLoop orig
                { acc with set := some (.object (set ++ [params])) } rest
            | .error (some index) => .error (.wrongArgumentType m index)
            | .error none => .error (.wrongArgumentType m 0)
          else .error (.missingArguments m)
        | .ok (.cursor set) =>
          if m.args.length = 7 then
            match try_unwrap_cursor_args m.args with
            | .ok params =>
              RoscDecoder.decodeLoop orig
                { acc with set := some (.cursor (set ++ [params])) } rest
            | .error (some index) => .error (.wrongArgumentType m index)
            | .error none => .error (.wrongArgumentType m 0)
          else .error (.missingArguments m)
        | .ok (.blob set) =>
          if m.args.length = 13 then
            match try_unwrap_blob_args m.args with
            | .ok params =>
              RoscDecoder.decodeLoop orig
                { acc with set := some (.blob (set ++ [params])) } rest
            | .error (some index) => .error (.wrongArgumentType m index)
            | .error none => .error (.wrongArgumentType m 0)
          else .error (.missingArguments m)
      else if arg = "fseq" then
        match m.args.get? 1 with
        | some (.int fseq) => RoscDecoder.decodeLoop orig { acc with fseq } rest
        | _ => .error (.missingArguments m)
      else .error (.unknownMessageType m)
    | some _ => .error (.unknownMessageType m)
    | none => .error (.emptyMessage m)

/-- Embeds `RoscDecoder::decode_bundle`. -/
def RoscDecoder.decode_bundle (bundle : OscBundle) : Except TuioError TuioBundle :=
  RoscDecoder.decodeLoop bundle TuioBundle.default bundle.content

/-- Embeds `osc_encode_decode.rs`: the encoding behaviour selector. -/
inductive EncodingBehaviour where
  | currentFrame
  | full
deriving DecidableEq, Repr

/-- The `set` message the encoder emits for one cursor
(`osc_encode_decode.rs` lines 130-141). -/
def cursor_set_message (cursor : Cursor) : OscPacket :=
  .message
    { addr := "/tuio/2Dcur"
      args := [.string "set", .int cursor.session_id,
               .float cursor.get_x_position, .float cursor.get_y_position,
               .float cursor.velocity.x, .float cursor.velocity.y,
               .float cursor.acceleration] }

/-- The encoder's cursor loop (`osc_encode_decode.rs` lines 122-142):
every cursor contributes its session id to the alive list; a cursor whose
sample time differs from `frame_time` is skipped for `set` emission in
`CurrentFrame` mode. -/
def RoscEncoder.cursorLoop (frame_time : F32) (behaviour : EncodingBehaviour) :
    List Cursor → List OscType × List OscPacket
  | [] => ([], [])
  | cursor :: rest =>
    let (ids, sets) := RoscEncoder.cursorLoop frame_time behaviour rest
    if behaviour = .currentFrame ∧ cursor.time ≠ frame_time then
      (.int cursor.session_id :: ids, sets)
    else
      (.int cursor.session_id :: ids, cursor_set_message cursor :: sets)

/-- Embeds `RoscEncoder::encode_cursor_bundle` (`osc_encode_decode.rs` lines
110-164).  The wall-clock timetag is passed in as `now`. -/
def RoscEncoder.encode_cursor_bundle (cursor_collection : List Cursor)
    (source_name : String) (frame_time : F32) (frame_id : Int)
    (behaviour : EncodingBehaviour) (now : F32) : OscBundle :=
  let source_message : OscPacket :=
    .message { addr := "/tuio/2Dcur", args := [.string "source", .string source_name] }
  let (cursor_ids, set_messages) :=
    RoscEncoder.cursorLoop frame_time behaviour cursor_collection
  let alive_message : OscPacket :=
    .message { addr := "/tuio/2Dcur", args := .string "alive" :: cursor_ids }
  let frame_message : OscPacket :=
    .message { addr := "/tuio/2Dcur", args := [.string "fseq", .int frame_id] }
  { timetag := now
    content := source_message :: alive_message :: (set_messages ++ [frame_message]) }

/-- Embeds `client.rs`: per-source entity maps (`SourceCollection`), insertion
order preserved. -/
structure SourceCollection where
  object_map : List (Int × Object)
  blob_map : List (Int × Blob)
  cursor_map : List (Int × Cursor)
deriving DecidableEq, Repr

/-- Embeds `SourceCollection::default()`. -/
def SourceCollection.default : SourceCollection :=
  { object_map := [], blob_map := [], cursor_map := [] }

/-- Embeds `IndexMap` lookup (`get` / `get_mut` success test). -/
def mapLookup {α : Type} (l : List (Int × α)) (k : Int) : Option α :=
  (l.find? (fun kv => kv.1 == k)).map (·.2)

/-- In-place rewrite of the value at a key (`get_mut` followed by a write);
insertion order is unchanged. -/
def mapUpdate {α : Type} (l : List (Int × α)) (k : Int) (f : α → α) : List (Int × α) :=
  l.map (fun kv => if kv.1 == k then (kv.1, f kv.2) else kv)

/-- Embeds `IndexMap::entry(k)` on a vacant key inserts at the end. -/
def mapInsert {α : Type} (l : List (Int × α)) (k : Int) (v : α) : List (Int × α) :=
  l ++ [(k, v)]

/-- Embeds `retain_by_ids` (`client.rs` lines 129-141): keep the entries whose keys
are in `to_keep` (preserving order) and return the removed ids in
iteration order. -/
def retain_by_ids {α : Type} (index_map : List (Int × α)) (to_keep : List Int) :
    List (Int × α) × List Int :=
  (index_map.filter (fun kv => to_keep.contains kv.1),
   (index_map.filter (fun kv => !to_keep.contains kv.1)).map (·.1))

/-- String-keyed `IndexMap` lookup for `source_list`. -/
def sourceLookup {α : Type} (l : List (String × α)) (k : String) : Option α :=
  (l.find? (fun kv => kv.1 == k)).map (·.2)

/-- Embeds `source_list.entry(name).or_default()`: appends a default collection at
the end when the name is absent. -/
def sourceEntryOrDefault (l : List (String × SourceCollection)) (k : String) :
    List (String × SourceCollection) :=
  if (l.find? (fun kv => kv.1 == k)).isSome then l
  else l ++ [(k, SourceCollection.default)]

/-- In-place rewrite of one source's collection. -/
def sourceUpdate (l : List (String × SourceCollection)) (k : String)
    (f : SourceCollection → SourceCollection) : List (String × SourceCollection) :=
  l.map (fun kv => if kv.1 == k then (kv.1, f kv.2) else kv)

/-- The dispatcher notifications the client emits (`dispatcher.rs`); the
`alive` branches of all three profiles call `remove_objects`. -/
inductive DispatchEvent where
  | removeObjects (ids : List Int)
  | addObject (object : Object)
  | updateObject (object : Object)
  | addCursor (cursor : Cursor)
  | updateCursor (cursor : Cursor)
  | addBlob (blob : Blob)
  | updateBlob (blob : Blob)
deriving DecidableEq, Repr

/-- The mutable client fields touched by packet processing
(`client.rs` struct `Client`).  `current_frame` starts at `-1`,
`current_time` at zero. -/
structure ClientState where
  current_frame : Int
  current_time : F32
  frame_objects : List ObjectParams
  frame_cursors : List CursorParams
  frame_blobs : List BlobParams
  source_list : List (String × SourceCollection)
  source_name : String
deriving DecidableEq, Repr

/-- Outcome of processing one message or packet: success with the new state
and the dispatched notifications, a `TuioError`, or a Rust panic. -/
inductive ClientResult where
  | ok (state : ClientState) (events : List DispatchEvent)
  | err (e : TuioError)
  | panicked
deriving Repr

/-- Embeds `Client::update_frame` (`client.rs` lines 235-251).  `now` stands for
`self.instant.elapsed()`.  Returns the updated state and whether the
frame was accepted as new. -/
def Client.update_frame (now : F32) (frame : Int) (s : ClientState) :
    ClientState × Bool :=
  if frame > 0 then
    let current_frame := s.current_frame
    let s1 := if frame > current_frame then { s with current_time := now } else s
    if frame ≥ current_frame ∨ current_frame - frame > 100 then
      ({ s1 with current_frame := frame }, true)
    else
      (s1, false)
  else
    (s, false)

/-- Embeds `Client::set_source_name` (`client.rs` lines 253-256). -/
def Client.set_source_name (s : ClientState) (source_name : String) : ClientState :=
  { s with source_list := sourceEntryOrDefault s.source_list source_name
           source_name := source_name }

/-- The drain loop of the accepted 2Dobj `fseq` branch (`client.rs` lines
293-306): apply each buffered set record, updating an existing entry or
inserting a new one, dispatching Update or New accordingly. -/
def applyFrameObjects (current_time : F32) :
    List (Int × Object) → List ObjectParams → List (Int × Object) × List DispatchEvent
  | omap, [] => (omap, [])
  | omap, p :: rest =>
    match mapLookup omap p.session_id with
    | some o =>
      let o2 := (o.client_update_values p.class_id ⟨p.x_pos, p.y_pos⟩ p.angle
        ⟨p.x_vel, p.y_vel⟩ p.rotation_speed p.acceleration p.rotation_acceleration)
      let (omap2, evs) :=
        applyFrameObjects current_time (mapUpdate omap p.session_id (fun _ => o2)) rest
      (omap2, .updateObject o2 :: evs)
    | none =>
      let o := (Object.new current_time p.session_id p.class_id
        ⟨p.x_pos, p.y_pos⟩ p.angle).with_movement
        ⟨p.x_vel, p.y_vel⟩ p.rotation_speed p.acceleration p.rotation_acceleration
      let (omap2, evs) :=
        applyFrameObjects current_time (mapInsert omap p.session_id o) rest
      (omap2, .addObject o :: evs)

/-- The drain loop of the accepted 2Dcur `fseq` branch (`client.rs` lines
354-367). -/
def applyFrameCursors (current_time : F32) :
    List (Int × Cursor) → List CursorParams → List (Int × Cursor) × List DispatchEvent
  | cmap, [] => (cmap, [])
  | cmap, p :: rest =>
    match mapLookup cmap p.session_id with
    | some c =>
      let c2 := c.client_update_values ⟨p.x_pos, p.y_pos⟩ ⟨p.x_vel, p.y_vel⟩ p.acceleration
      let (cmap2, evs) :=
        applyFrameCursors current_time (mapUpdate cmap p.session_id (fun _ => c2)) rest
      (cmap2, .updateCursor c2 :: evs)
    | none =>
      let c := (Cursor.new current_time p.session_id ⟨p.x_pos, p.y_pos⟩).with_movement
        ⟨p.x_vel, p.y_vel⟩ p.acceleration
      let (cmap2, evs) :=
        applyFrameCursors current_time (mapInsert cmap p.session_id c) rest
      (cmap2, .addCursor c :: evs)

/-- The drain loop of the accepted 2Dblb `fseq` branch (`client.rs` lines
415-428). -/
def applyFrameBlobs (current_time : F32) :
    List (Int × Blob) → List BlobParams → List (Int × Blob) × List DispatchEvent
  | bmap, [] => (bmap, [])
  | bmap, p :: rest =>
    match mapLookup bmap p.session_id with
    | some b =>
      let b2 := b.client_update_values ⟨p.x_pos, p.y_pos⟩ p.angle p.width p.height p.area
        ⟨p.x_vel, p.y_vel⟩ p.rotation_speed p.acceleration p.rotation_acceleration
      let (bmap2, evs) :=
        applyFrameBlobs current_time (mapUpdate bmap p.session_id (fun _ => b2)) rest
      (bmap2, .updateBlob b2 :: evs)
    | none =>
      let b := (Blob.new current_time p.session_id ⟨p.x_pos, p.y_pos⟩ p.angle
        p.width p.height p.area).with_movement
        ⟨p.x_vel, p.y_vel⟩ p.rotation_speed p.acceleration p.rotation_acceleration
      let (bmap2, evs) :=
        applyFrameBlobs current_time (mapInsert bmap p.session_id b) rest
      (bmap2, .addBlob b :: evs)

/-- Embeds `Client::process_osc_message` (`client.rs` lines 258-445), dispatching
on the address and the first argument.  Mirrors the source branch by
branch; in the 2Dcur and 2Dblb `set` branches the length guard is 11, as
in the source (`client.rs` lines 336 and 397). -/
def Client.process_osc_message (now : F32) (s : ClientState) (message : OscMessage) :
    ClientResult :=
  if message.addr = "/tuio/2Dobj" then
    match message.args.head? with
    | some (.string arg) =>
      if arg = "source" then
        match try_unwrap_source_name message with
        | .ok name => .ok (Client.set_source_name s name) []
        | .error e => .err e
      else if arg = "alive" then
        let to_keep := (message.args.drop 1).filterMap OscType.asInt
        match sourceLookup s.source_list s.source_name with
        | none => .panicked
        | some col =>
          let (kept, removed_ids) := retain_by_ids col.object_map to_keep
          let source_list := sourceUpdate s.source_list s.source_name
            (fun c => { c with object_map := kept })
          .ok { s with source_list } [.removeObjects removed_ids]
      else if arg = "set" then
        if message.args.length = 11 then
          match try_unwrap_object_args message.args with
          | .ok params => .ok { s with frame_objects := s.frame_objects ++ [params] } []
          | .error (some index) => .err (.wrongArgumentType message index)
          | .error none => .panicked
        else .err (.missingArguments message)
      else if arg = "fseq" then
        match message.args.get? 1 with
        | some (.int fseq) =>
          let (s1, fresh) := Client.update_frame now fseq s
          if fresh then
            match sourceLookup s1.source_list s1.source_name with
            | none => .panicked
            | some col =>
              let (omap2, evs) :=
                applyFrameObjects s1.current_time col.object_map s1.frame_objects
              let source_list := sourceUpdate s1.source_list s1.source_name
                (fun c => { c with object_map := omap2 })
              .ok { s1 with source_list, frame_objects := [] } evs
          else .ok s1 []
        | _ => .err (.missingArguments message)
      else .err (.unknownMessageType message)
    | some _ => .err (.unknownMessageType message)
    | none => .err (.emptyMessage message)
  else if message.addr = "/tuio/2Dcur" then
    match message.args.head? with
    | some (.string arg) =>
      if arg = "source" then
        match try_unwrap_source_name message with
        | .ok name => .ok (Client.set_source_name s name) []
        | .error e => .err e
      else if arg = "alive" then
        let to_keep := (message.args.drop 1).filterMap OscType.asInt
        match sourceLookup s.source_list s.source_name with
        | none => .panicked
        | some col =>
          let (kept, removed_ids) := retain_by_ids col.cursor_map to_keep
          let source_list := sourceUpdate s.source_list s.source_name
            (fun c => { c with cursor_map := kept })
          .ok { s with source_list } [.removeObjects removed_ids]
      else if arg = "set" then
        if message.args.length = 11 then
          match try_unwrap_cursor_args message.args with
          | .ok params => .ok { s with frame_cursors := s.frame_cursors ++ [params] } []
          | .error (some index) => .err (.wrongArgumentType message index)
          | .error none => .panicked
        else .err (.missingArguments message)
      else if arg = "fseq" then
        match message.args.get? 1 with
        | some (.int fseq) =>
          let (s1, fresh) := Client.update_frame now fseq s
          if fresh then
            match sourceLookup s1.source_list s1.source_name with
            | none => .panicked
            | some col =>
              let (cmap2, evs) :=
                applyFrameCursors s1.current_time col.cursor_map s1.frame_cursors
              let source_list := sourceUpdate s1.source_list s1.source_name
                (fun c => { c with cursor_map := cmap2 })
              .ok { s1 with source_list, frame_cursors := [] } evs
          else .ok s1 []
        | _ => .err (.missingArguments message)
      else .err (.unknownMessageType message)
    | some _ => .err (.unknownMessageType message)
    | none => .err (.emptyMessage message)
  else if message.addr = "/tuio/2Dblb" then
    match message.args.head? with
    | some (.string arg) =>
      if arg = "source" then
        match try_unwrap_source_name message with
        | .ok name => .ok (Client.set_source_name s name) []
        | .error e => .err e
      else if arg = "alive" then
        let to_keep := (message.args.drop 1).filterMap OscType.asInt
        match sourceLookup s.source_list s.source_name with
        | none => .panicked
        | some col =>
          let (kept, removed_ids) := retain_by_ids col.blob_map to_keep
          let source_list := sourceUpdate s.source_list s.source_name
            (fun c => { c with blob_map := kept })
          .ok { s with source_list } [.removeObjects removed_ids]
      else if arg = "set" then
        if message.args.length = 11 then
          match try_unwrap_blob_args message.args with
          | .ok params => .ok { s with frame_blobs := s.frame_blobs ++ [params] } []
          | .error (some index) => .err (.wrongArgumentType message index)
          | .error none => .panicked
        else .err (.missingArguments message)
      else if arg = "fseq" then
        match message.args.get? 1 with
        | some (.int fseq) =>
          let (s1, fresh) := Client.update_frame now fseq s
          if fresh then
            match sourceLookup s1.source_list s1.source_name with
            | none => .panicked
            | some col =>
              let (bmap2, evs) :=
                applyFrameBlobs s1.current_time col.blob_map s1.frame_blobs
              let source_list := sourceUpdate s1.source_list s1.source_name
                (fun c => { c with blob_map := bmap2 })
              .ok { s1 with source_list, frame_blobs := [] } evs
          else .ok s1 []
        | _ => .err (.missingArguments message)
      else .err (.unknownMessageType message)
    | some _ => .err (.unknownMessageType message)
    | none => .err (.emptyMessage message)
  else .err (.emptyMessage message)

mutual

/-- Embeds `Client::process_osc_packet` (`client.rs` lines 447-465): a bare message
is processed directly; a bundle's members are processed in order, stopping
at the first error. -/
def Client.process_osc_packet (now : F32) (s : ClientState) :
    OscPacket → ClientResult
  | .message msg => Client.process_osc_message now s msg
  | .bundle _ content => Client.process_packets now s content

/-- The member loop of `Client::process_osc_packet`, accumulating the
dispatched notifications of the successfully processed members. -/
def Client.process_packets (now : F32) (s : ClientState) :
    List OscPacket → ClientResult
  | [] => .ok s []
  | p :: rest =>
    match Client.process_osc_packet now s p with
    | .ok s1 evs =>
      match Client.process_packets now s1 rest with
      | .ok s2 evs2 => .ok s2 (evs ++ evs2)
      | r => r
    | r => r

end

/-- Embeds `IndexMap::remove` (indexmap's swap-remove, used by `server.rs`): the
removed entry is replaced by the last entry, which keeps the map compact
but disturbs order; an absent key leaves the map unchanged. -/
def mapSwapRemove {α : Type} (l : List (Int × α)) (k : Int) :
    Option α × List (Int × α) :=
  match l.findIdx? (fun kv => kv.1 == k) with
  | none => (none, l)
  | some i =>
    match l.getLast? with
    | none => (none, l)
    | some last => ((l.get? i).map (·.2), (l.set i last).dropLast)

/-- The mutable server fields touched by the modelled operations
(`server.rs` struct `Server`). -/
structure ServerState where
  source_name : String
  session_id : Int
  object_map : List (Int × Object)
  object_updated : Bool
  cursor_map : List (Int × Cursor)
  cursor_updated : Bool
  blob_map : List (Int × Blob)
  blob_updated : Bool
  current_frame_time : F32
  last_frame_id : Int
  full_update : Bool
  periodic_messaging : Bool
  update_interval : F32
  object_profiling : Bool
  object_update_time : F32
  cursor_profiling : Bool
  cursor_update_time : F32
  blob_profiling : Bool
  blob_update_time : F32
deriving DecidableEq, Repr

/-- Embeds `Server::update_object` (`server.rs` lines 211-216): if the session id
is present, run the kinematics update at the current frame time and mark
the profile dirty; otherwise do nothing. -/
def Server.update_object (s : ServerState) (session_id : Int)
    (x : F32) (y : F32) (angle : F32) : ServerState :=
  match mapLookup s.object_map session_id with
  | some _ =>
    { s with
      object_map := mapUpdate s.object_map session_id
        (fun o => o.update s.current_frame_time ⟨x, y⟩ angle)
      object_updated := true }
  | none => s

/-- Embeds `Server::remove_object` (`server.rs` lines 222-226). -/
def Server.remove_object (s : ServerState) (session_id : Int) : ServerState :=
  let (removed, object_map) := mapSwapRemove s.object_map session_id
  { s with object_map
           object_updated := if removed.isSome then true else s.object_updated }

/-- Embeds `Server::update_cursor` (`server.rs` lines 248-253). -/
def Server.update_cursor (s : ServerState) (session_id : Int)
    (x : F32) (y : F32) : ServerState :=
  match mapLookup s.cursor_map session_id with
  | some _ =>
    { s with
      cursor_map := mapUpdate s.cursor_map session_id
        (fun c => c.update s.current_frame_time ⟨x, y⟩)
      cursor_updated := true }
  | none => s

/-- Embeds `Server::remove_cursor` (`server.rs` lines 259-263). -/
def Server.remove_cursor (s : ServerState) (session_id : Int) : ServerState :=
  let (removed, cursor_map) := mapSwapRemove s.cursor_map session_id
  { s with cursor_map
           cursor_updated := if removed.isSome then true else s.cursor_updated }

/-- Embeds `Server::update_blob` (`server.rs` lines 293-298).  `Blob::update` is
`todo!()` in `blob.rs`, so the present-id branch panics (`none`); an absent
id is a no-op. -/
def Server.update_blob (s : ServerState) (session_id : Int) (x : F32) (y : F32)
    (angle : F32) (width : F32) (height : F32) (area : F32) : Option ServerState :=
  match mapLookup s.blob_map session_id with
  | some _ => none
  | none => some s

/-- Embeds `Server::remove_blob` (`server.rs` lines 304-308). -/
def Server.remove_blob (s : ServerState) (session_id : Int) : ServerState :=
  let (removed, blob_map) := mapSwapRemove s.blob_map session_id
  { s with blob_map
           blob_updated := if removed.isSome then true else s.blob_updated }

/-- The `set` message `Server::build_cursor_bundle` emits for one map entry
(`server.rs` lines 422-433); the session id comes from the map key. -/
def server_cursor_set_message (id : Int) (cursor : Cursor) : OscPacket :=
  .message
    { addr := "/tuio/2Dcur"
      args := [.string "set", .int id,
               .float cursor.get_x_position, .float cursor.get_y_position,
               .float cursor.velocity.x, .float cursor.velocity.y,
               .float cursor.acceleration] }

/-- The map loop of `Server::build_cursor_bundle` (`server.rs` lines
415-434): every entry contributes its id to the alive list; entries whose
sample time differs from the current frame time are skipped for `set`
emission unless `force_all` is set. -/
def Server.cursorBundleLoop (current_frame_time : F32) (force_all : Bool) :
    List (Int × Cursor) → List OscType × List OscPacket
  | [] => ([], [])
  | (id, cursor) :: rest =>
    let (ids, sets) := Server.cursorBundleLoop current_frame_time force_all rest
    if !force_all ∧ cursor.time ≠ current_frame_time then
      (.int id :: ids, sets)
    else
      (.int id :: ids, server_cursor_set_message id cursor :: sets)

/-- Embeds `Server::build_cursor_bundle` (`server.rs` lines 403-456).  The
wall-clock timetag is passed in as `now`. -/
def Server.build_cursor_bundle (s : ServerState) (force_all : Bool) (now : F32) :
    OscPacket :=
  let source_message : OscPacket :=
    .message { addr := "/tuio/2Dcur", args := [.string "source", .string s.source_name] }
  let (cursor_ids, set_messages) :=
    Server.cursorBundleLoop s.current_frame_time force_all s.cursor_map
  let alive_message : OscPacket :=
    .message { addr := "/tuio/2Dcur", args := .string "alive" :: cursor_ids }
  let frame_message : OscPacket :=
    .message { addr := "/tuio/2Dcur", args := [.string "fseq", .int s.last_frame_id] }
  .bundle now (source_message :: alive_message :: (set_messages ++ [frame_message]))

/-- One "goodbye" bundle of `impl Drop for Server` (`server.rs` lines
544-633): the source message, an `alive` message with no ids, and an
`fseq` message carrying `-1`. -/
def Server.goodbye_bundle (addr : String) (source_name : String) (now : F32) :
    OscPacket :=
  .bundle now
    [.message { addr, args := [.string "source", .string source_name] },
     .message { addr, args := [.string "alive"] },
     .message { addr, args := [.string "fseq", .int (-1)] }]

/-- Embeds `impl Drop for Server` (`server.rs` lines 544-633): the sequence of
packets delivered on shutdown, one goodbye bundle per profile in the
order 2Dobj, 2Dcur, 2Dblb. -/
def Server.drop_packets (s : ServerState) (now : F32) : List OscPacket :=
  [Server.goodbye_bundle "/tuio/2Dobj" s.source_name now,
   Server.goodbye_bundle "/tuio/2Dcur" s.source_name now,
   Server.goodbye_bundle "/tuio/2Dblb" s.source_name now]

/-! Helper lemmas and concrete test fixtures. -/

/-- Decoding an alive argument list built from integer ids recovers the ids. -/
theorem filterMap_asInt_int (ids : List Int) :
    (ids.map OscType.int).filterMap OscType.asInt = ids := by
  induction ids with
  | nil => rfl
  | cons i t ih => simp [OscType.asInt, ih]

/-- Rejection case of `update_frame`: a late frame (an earlier frame
within the 100-frame window) is refused and the client state is left
untouched. -/
theorem update_frame_rejects (now : F32) (s : ClientState) (f : Int)
    (h1 : f < s.current_frame) (h2 : s.current_frame - f ≤ 100) :
    Client.update_frame now f s = (s, false) := by
  unfold Client.update_frame
  by_cases hf : f > 0
  · rw [if_pos hf, if_neg (by omega), if_neg (by omega)]
  · rw [if_neg hf]

/-- A concrete client state used to instantiate hypotheses. -/
def testClientState : ClientState :=
  { current_frame := -1
    current_time := 0
    frame_objects := []
    frame_cursors := []
    frame_blobs := []
    source_list := []
    source_name := "" }

/-- C3 counterexample: with `current_frame` at its initial value `-1`, the
incoming frame `0` satisfies the claim's acceptance condition (`0 ≥ 0` and
`0 > -1`), yet `Client::update_frame` rejects it and leaves the state
unchanged, because of the `frame > 0` gate. -/
theorem update_frame_zero_rejected_cx :
    (0 : Int) ≥ 0 ∧ (0 : Int) > (-1 : Int) ∧
    Client.update_frame 5 0 testClientState = (testClientState, false) := by
  refine ⟨by decide, by decide, ?_⟩
  rfl

/-- C3 (amended): every frame `f ≤ 0` is rejected with the state unchanged;
every frame `f` with `f > 0` and `f > current_frame` is accepted, setting
`current_frame := f` and refreshing `current_time` to the elapsed time
(`now`). -/
theorem update_frame_accepts_new (now : F32) (s : ClientState) (f : Int) :
    (f ≤ 0 → Client.update_frame now f s = (s, false)) ∧
    (0 < f → s.current_frame < f →
      Client.update_frame now f s =
        ({ s with current_frame := f, current_time := now }, true)) := by
  constructor
  · intro h
    unfold Client.update_frame
    rw [if_neg (by omega)]
  · intro h1 h2
    simp only [Client.update_frame]
    split_ifs with a b c <;> first | rfl | omega

/-- C3 witness: `-2` is rejected; `3` (above the initial `-1`) is accepted
with the frame and time updated. -/
theorem update_frame_accepts_new_witness :
    Client.update_frame 5 (-2) testClientState = (testClientState, false) ∧
    Client.update_frame 5 3 testClientState =
      ({ testClientState with current_frame := 3, current_time := 5 }, true) :=
  ⟨(update_frame_accepts_new 5 testClientState (-2)).1 (by decide),
   (update_frame_accepts_new 5 testClientState 3).2 (by decide) (by decide)⟩

/-- C6 counterexample: the restart jump from `current_frame = 1000000` to
`f = 5` is accepted, but `current_time` keeps its old value `0` instead of
being refreshed to the elapsed time `7`; and the jump to `f = 0`, which
also satisfies `f ≥ 0` and `current_frame - f > 100`, is rejected
outright. -/
theorem update_frame_restart_cx :
    ((1000000 : Int) - 5 > 100) ∧
    Client.update_frame 7 5 { testClientState with current_frame := 1000000 } =
      ({ testClientState with current_frame := 5 }, true) ∧
    ({ testClientState with current_frame := 5 }).current_time ≠ (7 : F32) ∧
    Client.update_frame 7 0 { testClientState with current_frame := 1000000 } =
      ({ testClientState with current_frame := 1000000 }, false) := by
  refine ⟨by decide, ?_, by decide, ?_⟩ <;> rfl

/-- C6 (amended): for `f > 0` with `current_frame - f > 100` the frame is
accepted as a source restart and `current_frame` is set to `f`, but
`current_time` is left unchanged (the refresh only happens for forward
jumps); `f = 0` is always rejected by the `frame > 0` gate. -/
theorem update_frame_restart (now : F32) (s : ClientState) (f : Int)
    (h1 : 0 < f) (h2 : s.current_frame - f > 100) :
    Client.update_frame now f s = ({ s with current_frame := f }, true) := by
  simp only [Client.update_frame]
  split_ifs with a b c <;> first | rfl | omega

/-- C6 witness: the restart from frame 1000000 to 5 at elapsed time 7. -/
theorem update_frame_restart_witness :
    Client.update_frame 7 5 { testClientState with current_frame := 1000000 } =
      ({ testClientState with current_frame := 5 }, true) :=
  update_frame_restart 7 { testClientState with current_frame := 1000000 } 5
    (by decide) (by decide)

/-- An absent key makes `findIdx?` fail, so indexmap's swap-remove leaves
the map unchanged. -/
theorem mapSwapRemove_absent {α : Type} (l : List (Int × α)) (k : Int)
    (h : mapLookup l k = none) : mapSwapRemove l k = (none, l) := by
  have hf : l.findIdx? (fun kv => kv.1 == k) = none := by
    induction l with
    | nil => rfl
    | cons kv t ih =>
      by_cases hp : kv.1 == k
      · exfalso
        simp [mapLookup, List.find?, hp] at h
      · simp only [mapLookup, List.find?, hp] at h
        simp [List.findIdx?_cons, hp, ih h]
  unfold mapSwapRemove
  rw [hf]

/-- A concrete object fixture. -/
def testObject : Object := Object.new 0 0 3 ⟨0, 0⟩ 0

/-- A concrete cursor fixture. -/
def testCursor : Cursor := Cursor.new 0 1 ⟨0, 0⟩

/-- A concrete blob fixture. -/
def testBlob : Blob := Blob.new 0 2 ⟨0, 0⟩ 0 (1/10) (1/10) (1/100)

/-- A concrete server state with one entity per profile. -/
def testServerState : ServerState :=
  { source_name := "test@local"
    session_id := 2
    object_map := [(0, testObject)]
    object_updated := false
    cursor_map := [(1, testCursor)]
    cursor_updated := false
    blob_map := [(2, testBlob)]
    blob_updated := false
    current_frame_time := 0
    last_frame_id := 0
    full_update := false
    periodic_messaging := false
    update_interval := 1
    object_profiling := true
    object_update_time := 0
    cursor_profiling := true
    cursor_update_time := 0
    blob_profiling := true
    blob_update_time := 0 }

/-- C8: for a session id absent from the corresponding map, the server's
update and remove operations leave the entire server state unchanged —
maps untouched and dirty flags keeping their previous values.  (The
present-id branch of `update_blob` is `todo!()` in the source, hence the
`some` result encoding the absence of a panic.) -/
theorem server_absent_id_noop (s : ServerState) (id : Int)
    (x y angle width height area : F32) :
    (mapLookup s.object_map id = none →
      Server.update_object s id x y angle = s ∧ Server.remove_object s id = s) ∧
    (mapLookup s.cursor_map id = none →
      Server.update_cursor s id x y = s ∧ Server.remove_cursor s id = s) ∧
    (mapLookup s.blob_map id = none →
      Server.update_blob s id x y angle width height area = some s ∧
      Server.remove_blob s id = s) := by
  refine ⟨fun h => ⟨?_, ?_⟩, fun h => ⟨?_, ?_⟩, fun h => ⟨?_, ?_⟩⟩
  · simp [Server.update_object, h]
  · simp [Server.remove_object, mapSwapRemove_absent _ _ h]
  · simp [Server.update_cursor, h]
  · simp [Server.remove_cursor, mapSwapRemove_absent _ _ h]
  · simp [Server.update_blob, h]
  · simp [Server.remove_blob, mapSwapRemove_absent _ _ h]

/-- C8 witness: session id 5 is absent from all three maps of the test
server state, and all six operations leave it unchanged. -/
theorem server_absent_id_noop_witness :
    (Server.update_object testServerState 5 0 0 0 = testServerState ∧
      Server.remove_object testServerState 5 = testServerState) ∧
    (Server.update_cursor testServerState 5 0 0 = testServerState ∧
      Server.remove_cursor testServerState 5 = testServerState) ∧
    (Server.update_blob testServerState 5 0 0 0 0 0 0 = some testServerState ∧
      Server.remove_blob testServerState 5 = testServerState) :=
  ⟨(server_absent_id_noop testServerState 5 0 0 0 0 0 0).1 (by decide),
   (server_absent_id_noop testServerState 5 0 0 0 0 0 0).2.1 (by decide),
   (server_absent_id_noop testServerState 5 0 0 0 0 0 0).2.2 (by decide)⟩

/-- Member list of a packet (empty for a bare message). -/
def packetContent : OscPacket → List OscPacket
  | .message _ => []
  | .bundle _ content => content

/-- C9: dropping the server emits exactly three goodbye bundles, for the
profiles 2Dobj, 2Dcur, 2Dblb in that order, each made of the source
message, an `alive` message with an empty id list, and an `fseq` message
carrying `-1`; decoding each of them yields the terminal frame
(`alive = []`, no set, `fseq = -1`) for the respective profile. -/
theorem server_drop_goodbye (s : ServerState) (now : F32) :
    Server.drop_packets s now =
      [.bundle now
        [.message ⟨"/tuio/2Dobj", [.string "source", .string s.source_name]⟩,
         .message ⟨"/tuio/2Dobj", [.string "alive"]⟩,
         .message ⟨"/tuio/2Dobj", [.string "fseq", .int (-1)]⟩],
       .bundle now
        [.message ⟨"/tuio/2Dcur", [.string "source", .string s.source_name]⟩,
         .message ⟨"/tuio/2Dcur", [.string "alive"]⟩,
         .message ⟨"/tuio/2Dcur", [.string "fseq", .int (-1)]⟩],
       .bundle now
        [.message ⟨"/tuio/2Dblb", [.string "source", .string s.source_name]⟩,
         .message ⟨"/tuio/2Dblb", [.string "alive"]⟩,
         .message ⟨"/tuio/2Dblb", [.string "fseq", .int (-1)]⟩]] ∧
    (Server.drop_packets s now).map
        (fun p => RoscDecoder.decode_bundle ⟨now, packetContent p⟩) =
      [.ok { tuio_type := .object, source := s.source_name, alive := [],
             set := none, fseq := -1 },
       .ok { tuio_type := .cursor, source := s.source_name, alive := [],
             set := none, fseq := -1 },
       .ok { tuio_type := .blob, source := s.source_name, alive := [],
             set := none, fseq := -1 }] :=
  ⟨rfl, rfl⟩

/-- Every entry of the encoder's cursor loop contributes its session id to
the alive list, whatever the encoding behaviour. -/
theorem cursorLoop_ids (frame_time : F32) (behaviour : EncodingBehaviour)
    (cs : List Cursor) :
    (RoscEncoder.cursorLoop frame_time behaviour cs).1 =
      cs.map (fun c => OscType.int c.session_id) := by
  induction cs with
  | nil => rfl
  | cons c t ih =>
    simp only [RoscEncoder.cursorLoop, List.map_cons]
    split_ifs <;> simp [ih]

/-- Every entry of the server's cursor bundle loop contributes its map key
to the alive list, whatever the `force_all` flag. -/
theorem cursorBundleLoop_ids (current_frame_time : F32) (force_all : Bool)
    (l : List (Int × Cursor)) :
    (Server.cursorBundleLoop current_frame_time force_all l).1 =
      l.map (fun kv => OscType.int kv.1) := by
  induction l with
  | nil => rfl
  | cons kv t ih =>
    simp only [Server.cursorBundleLoop, List.map_cons]
    split_ifs <;> simp [ih]

/-- C10: the alive message built by the encoder and by the server's cursor
bundle builder lists the session id of every entity in insertion order, in
both `CurrentFrame` and `Full` modes (resp. with and without `force_all`):
the current-frame filter suppresses only `set` messages, never alive
entries. -/
theorem alive_list_independent_of_behaviour (cs : List Cursor) (source_name : String)
    (frame_time : F32) (frame_id : Int) (behaviour : EncodingBehaviour) (now : F32)
    (s : ServerState) (force_all : Bool) :
    (RoscEncoder.encode_cursor_bundle cs source_name frame_time frame_id
        behaviour now).content.get? 1 =
      some (.message ⟨"/tuio/2Dcur",
        .string "alive" :: cs.map (fun c => OscType.int c.session_id)⟩) ∧
    (packetContent (Server.build_cursor_bundle s force_all now)).get? 1 =
      some (.message ⟨"/tuio/2Dcur",
        .string "alive" :: s.cursor_map.map (fun kv => OscType.int kv.1)⟩) := by
  constructor
  · simp [RoscEncoder.encode_cursor_bundle, cursorLoop_ids]
  · simp [Server.build_cursor_bundle, packetContent, cursorBundleLoop_ids]

/-- The rational square root of zero is zero. -/
theorem rat_sqrt_zero : Rat.sqrt 0 = 0 := rfl

/-- The zero velocity has zero speed. -/
theorem get_speed_zero : Velocity.get_speed ⟨0, 0⟩ = 0 := by
  simp [Velocity.get_speed, rat_sqrt_zero]

/-- A point is at distance zero from itself. -/
theorem distance_from_self (p : Point) : p.distance_from p = 0 := by
  simp [Point.distance_from, rat_sqrt_zero]

/-- A cursor update always leaves the new sample as the current position. -/
theorem cursor_update_last_position (c : Cursor) (t : F32) (p : Point) :
    (c.update t p).last_position = p := by
  simp [Cursor.update, Cursor.last_position]

/-- Updating a cursor with its current position zeroes the velocity. -/
theorem cursor_update_self_velocity (c : Cursor) (t : F32) (p : Point)
    (h : c.last_position = p) : (c.update t p).velocity = ⟨0, 0⟩ := by
  simp [Cursor.update, h, sub_self, zero_div]

/-- Updating a cursor with its current position makes the acceleration the
braking term `(0 - previous speed) / Δt`. -/
theorem cursor_update_self_acceleration (c : Cursor) (t : F32) (p : Point)
    (h : c.last_position = p) :
    (c.update t p).acceleration = (0 - c.velocity.get_speed) / (t - c.time) := by
  simp [Cursor.update, h, distance_from_self, sub_self, zero_div]

/-- A cursor update sets the sample time. -/
theorem cursor_update_time (c : Cursor) (t : F32) (p : Point) :
    (c.update t p).time = t := rfl

/-- An object update keeps the new sample as position and angle. -/
theorem object_update_position_angle (o : Object) (t : F32) (p : Position) (a : F32) :
    (o.update t p a).position = p ∧ (o.update t p a).angle = a ∧
    (o.update t p a).time = t := ⟨rfl, rfl, rfl⟩

/-- Updating an object with its current position zeroes the velocity. -/
theorem object_update_self_velocity (o : Object) (t : F32) (p : Position) (a : F32)
    (h : o.position = p) : (o.update t p a).velocity = ⟨0, 0⟩ := by
  simp [Object.update, h, sub_self, zero_div]

/-- Updating an object with its current position makes the acceleration the
braking term `(0 - previous speed) / Δt`. -/
theorem object_update_self_acceleration (o : Object) (t : F32) (p : Position) (a : F32)
    (h : o.position = p) :
    (o.update t p a).acceleration = (0 - o.velocity.get_speed) / (t - o.time) := by
  simp [Object.update, h, distance_from_self, sub_self, zero_div]

/-- Updating an object with its current angle zeroes the rotation speed. -/
theorem object_update_self_rotation_speed (o : Object) (t : F32) (p : Position) (a : F32)
    (h : o.angle = a) : (o.update t p a).rotation_speed = 0 := by
  simp [Object.update, h, sub_self, zero_div]

/-- Updating an object with its current angle makes the rotation
acceleration the braking term `(0 - previous rotation speed) / Δt`. -/
theorem object_update_self_rotation_acceleration (o : Object) (t : F32) (p : Position)
    (a : F32) (h : o.angle = a) :
    (o.update t p a).rotation_acceleration = (0 - o.rotation_speed) / (t - o.time) := by
  simp [Object.update, h, sub_self, zero_div]

/-- C7: updating an entity twice with its own (position, angle) — the
"identity" sample — with strictly positive time deltas leaves it with zero
velocity and zero acceleration, and for objects zero rotation speed and
zero rotation acceleration.  (The first identity update zeroes velocity
and rotation speed; the second then also zeroes the two braking terms.) -/
theorem kinematics_identity_updates (c : Cursor) (o : Object) (t1 t2 t3 t4 : F32)
    (hc1 : c.time < t1) (hc2 : t1 < t2) (ho1 : o.time < t3) (ho2 : t3 < t4) :
    (((c.update t1 c.last_position).update t2 c.last_position).velocity = ⟨0, 0⟩ ∧
     ((c.update t1 c.last_position).update t2 c.last_position).acceleration = 0) ∧
    (((o.update t3 o.position o.angle).update t4 o.position o.angle).velocity = ⟨0, 0⟩ ∧
     ((o.update t3 o.position o.angle).update t4 o.position o.angle).acceleration = 0 ∧
     ((o.update t3 o.position o.angle).update t4 o.position o.angle).rotation_speed = 0 ∧
     ((o.update t3 o.position o.angle).update t4 o.position o.angle).rotation_acceleration
       = 0) := by
  have hcl : (c.update t1 c.last_position).last_position = c.last_position :=
    cursor_update_last_position c t1 c.last_position
  have hop : (o.update t3 o.position o.angle).position = o.position := rfl
  have hoa : (o.update t3 o.position o.angle).angle = o.angle := rfl
  refine ⟨⟨cursor_update_self_velocity _ t2 _ hcl, ?_⟩,
          object_update_self_velocity _ t4 _ _ hop, ?_,
          object_update_self_rotation_speed _ t4 _ _ hoa, ?_⟩
  · rw [cursor_update_self_acceleration _ t2 _ hcl,
        cursor_update_self_velocity c t1 c.last_position rfl, get_speed_zero]
    simp
  · rw [object_update_self_acceleration _ t4 _ _ hop,
        object_update_self_velocity o t3 o.position o.angle rfl, get_speed_zero]
    simp
  · rw [object_update_self_rotation_acceleration _ t4 _ _ hoa,
        object_update_self_rotation_speed o t3 o.position o.angle rfl]
    simp

/-- C7 witness: a cursor at (1/2, 1/2) and an object at the origin with
angle 1, identity-updated at times 1 and 2. -/
theorem kinematics_identity_updates_witness :
    let c := Cursor.new 0 0 ⟨1/2, 1/2⟩
    let o := Object.new 0 0 0 ⟨0, 0⟩ 1
    (((c.update 1 c.last_position).update 2 c.last_position).velocity = ⟨0, 0⟩ ∧
     ((c.update 1 c.last_position).update 2 c.last_position).acceleration = 0) ∧
    (((o.update 1 o.position o.angle).update 2 o.position o.angle).velocity = ⟨0, 0⟩ ∧
     ((o.update 1 o.position o.angle).update 2 o.position o.angle).acceleration = 0 ∧
     ((o.update 1 o.position o.angle).update 2 o.position o.angle).rotation_speed = 0 ∧
     ((o.update 1 o.position o.angle).update 2 o.position o.angle).rotation_acceleration
       = 0) :=
  kinematics_identity_updates (Cursor.new 0 0 ⟨1/2, 1/2⟩) (Object.new 0 0 0 ⟨0, 0⟩ 1)
    1 2 1 2 (by decide) (by decide) (by decide) (by decide)

/-- The `set` record the encoder writes for a cursor, field by field. -/
def cursor_to_params (c : Cursor) : CursorParams :=
  { session_id := c.session_id
    x_pos := c.get_x_position
    y_pos := c.get_y_position
    x_vel := c.velocity.x
    y_vel := c.velocity.y
    acceleration := c.acceleration }

/-- The cursor entries of a decoded `set` payload (empty when no `set`
message was decoded). -/
def set_cursor_entries : Option SetParams → List CursorParams
  | some (.cursor l) => l
  | _ => []

/-- In `Full` mode the encoder loop emits one `set` message per cursor. -/
theorem cursorLoop_full (frame_time : F32) (cs : List Cursor) :
    RoscEncoder.cursorLoop frame_time .full cs =
      (cs.map (fun c => OscType.int c.session_id), cs.map cursor_set_message) := by
  induction cs with
  | nil => rfl
  | cons c t ih => simp [RoscEncoder.cursorLoop, ih]

/-- Decoding alive ids built by mapping an id-valued function. -/
theorem filterMap_asInt_map_int_of {β : Type} (f : β → Int) (l : List β) :
    (l.map (fun b => OscType.int (f b))).filterMap OscType.asInt = l.map f := by
  induction l with
  | nil => rfl
  | cons b t ih => simp [OscType.asInt, ih]

/-- Composed form of the previous lemma, as `simp` normalizes it. -/
theorem filterMap_asInt_comp {β : Type} (f : β → Int) (l : List β) :
    List.filterMap (OscType.asInt ∘ fun b => OscType.int (f b)) l = l.map f := by
  induction l with
  | nil => rfl
  | cons b t ih => simp [OscType.asInt, Function.comp, ih]

/-- The decoder folds a run of well-formed cursor `set` messages into the
accumulated cursor set, in order. -/
theorem decodeLoop_cursor_sets (orig : OscBundle) (S : String) (al : List Int)
    (fs : Int) (accL : List CursorParams) (cs : List Cursor) (rest : List OscPacket) :
    RoscDecoder.decodeLoop orig
      { tuio_type := .cursor, source := S, alive := al,
        set := some (.cursor accL), fseq := fs }
      (cs.map cursor_set_message ++ rest) =
    RoscDecoder.decodeLoop orig
      { tuio_type := .cursor, source := S, alive := al,
        set := some (.cursor (accL ++ cs.map cursor_to_params)), fseq := fs } rest := by
  induction cs generalizing accL with
  | nil => simp
  | cons c t ih =>
    simp only [List.map_cons, List.cons_append]
    rw [show RoscDecoder.decodeLoop orig
      { tuio_type := .cursor, source := S, alive := al,
        set := some (.cursor accL), fseq := fs }
      (cursor_set_message c :: (t.map cursor_set_message ++ rest)) =
      RoscDecoder.decodeLoop orig
      { tuio_type := .cursor, source := S, alive := al,
        set := some (.cursor (accL ++ [cursor_to_params c])), fseq := fs }
      (t.map cursor_set_message ++ rest) from by
        simp [RoscDecoder.decodeLoop, cursor_set_message, try_unwrap_cursor_args,
          argInt, argFloat, argAt, OscType.asInt, OscType.asFloat, cursor_to_params,
          bind, Except.bind, pure, Except.pure]]
    rw [ih]
    simp

/-- C1: encoding a cursor collection (source `S`, frame id `F`, `Full`
behaviour) and decoding the resulting bundle succeeds and yields the
profile type, the source `S`, the fseq `F`, the alive list of session ids
in insertion order, and `set` entries equal to the cursors pointwise,
field by field. -/
theorem encode_decode_cursor_roundtrip (cs : List Cursor) (S : String) (t : F32)
    (F : Int) (now : F32) :
    (RoscDecoder.decode_bundle
        (RoscEncoder.encode_cursor_bundle cs S t F .full now)).map
      (fun db => (db.tuio_type, db.source, db.alive, set_cursor_entries db.set, db.fseq)) =
      .ok (.cursor, S, cs.map (fun c => c.session_id), cs.map cursor_to_params, F) := by
  cases cs with
  | nil =>
    simp [RoscEncoder.encode_cursor_bundle, cursorLoop_full, RoscDecoder.decode_bundle,
      RoscDecoder.decodeLoop, profileOfAddr, try_unwrap_source_name, OscType.asString,
      TuioBundle.default, set_cursor_entries, Except.map]
  | cons c rest =>
    simp [RoscEncoder.encode_cursor_bundle, cursorLoop_full, RoscDecoder.decode_bundle,
      RoscDecoder.decodeLoop, profileOfAddr, try_unwrap_source_name, OscType.asString,
      TuioBundle.default, filterMap_asInt_map_int_of, filterMap_asInt_comp,
      cursor_set_message,
      try_unwrap_cursor_args, argInt, argFloat, argAt, OscType.asInt, OscType.asFloat,
      bind, Except.bind, pure, Except.pure, decodeLoop_cursor_sets,
      set_cursor_entries, cursor_to_params, Except.map]

/-- Composed form of alive-id decoding over a plain id list. -/
theorem filterMap_asInt_comp_int (ids : List Int) :
    List.filterMap (OscType.asInt ∘ OscType.int) ids = ids := by
  induction ids with
  | nil => rfl
  | cons i t ih => simp [OscType.asInt, Function.comp, ih]

/-- A well-formed 2Dcur `set` message fixture. -/
def cxSetMsg : OscMessage :=
  ⟨"/tuio/2Dcur", [.string "set", .int 1, .float 0, .float 0, .float 0, .float 0, .float 0]⟩

/-- A 2Dcur `source` message fixture. -/
def cxSourceMsg : OscMessage := ⟨"/tuio/2Dcur", [.string "source", .string "A"]⟩

/-- A 2Dcur `alive` message fixture. -/
def cxAliveMsg : OscMessage := ⟨"/tuio/2Dcur", [.string "alive", .int 1]⟩

/-- A 2Dcur `fseq` message fixture. -/
def cxFseqMsg : OscMessage := ⟨"/tuio/2Dcur", [.string "fseq", .int 1]⟩

/-- C5 counterexample: the permutation that moves the `set` message before
the `source` message does not decode to the same result as the canonical
order — it fails with `IncompleteBundle`, because the profile type is
still unknown when the `set` message is dispatched. -/
theorem decode_set_before_source_cx :
    RoscDecoder.decode_bundle ⟨0, [.message cxSetMsg, .message cxSourceMsg,
        .message cxAliveMsg, .message cxFseqMsg]⟩ =
      .error (.incompleteBundle ⟨0, [.message cxSetMsg, .message cxSourceMsg,
        .message cxAliveMsg, .message cxFseqMsg]⟩) ∧
    RoscDecoder.decode_bundle ⟨0, [.message cxSourceMsg, .message cxAliveMsg,
        .message cxSetMsg, .message cxFseqMsg]⟩ =
      .ok { tuio_type := .cursor, source := "A", alive := [1],
            set := some (.cursor [⟨1, 0, 0, 0, 0, 0⟩]), fseq := 1 } :=
  ⟨rfl, rfl⟩

/-- C5 (amended): the decoder accepts the `source`, `alive` and `fseq`
roles wherever they appear, but a `set` message is only accepted after a
`source` message has established the profile.  For a bundle of one
`source`, one `alive`, one `fseq` and one `set` message, all twelve
orderings that keep the `source` before the `set` (generated by inserting
the `fseq` and `alive` messages at arbitrary positions around the
source-then-set spine) decode to the same result. -/
theorem decode_order_tolerant_after_source (S : String) (ids : List Int)
    (F sid : Int) (x y vx vy ac tt : F32) (i j : Nat) (hi : i ≤ 3) (hj : j ≤ 2) :
    RoscDecoder.decode_bundle ⟨tt,
      ([OscPacket.message ⟨"/tuio/2Dcur", [.string "source", .string S]⟩,
        OscPacket.message ⟨"/tuio/2Dcur", [.string "set", .int sid, .float x,
          .float y, .float vx, .float vy, .float ac]⟩
       ].insertIdx j (.message ⟨"/tuio/2Dcur", [.string "fseq", .int F]⟩)).insertIdx i
         (.message ⟨"/tuio/2Dcur", .string "alive" :: ids.map OscType.int⟩)⟩ =
      .ok { tuio_type := .cursor, source := S, alive := ids,
            set := some (.cursor [⟨sid, x, y, vx, vy, ac⟩]), fseq := F } := by
  interval_cases j <;> interval_cases i <;>
    simp [RoscDecoder.decode_bundle, RoscDecoder.decodeLoop, profileOfAddr,
      try_unwrap_source_name, OscType.asString, TuioBundle.default, List.insertIdx,
      filterMap_asInt_int, filterMap_asInt_comp_int, try_unwrap_cursor_args,
      argInt, argFloat, argAt,
      OscType.asInt, OscType.asFloat, bind, Except.bind, pure, Except.pure]

/-- C5 witness: the fully canonical order (alive and fseq in their usual
slots) at a concrete instantiation. -/
theorem decode_order_tolerant_after_source_witness :
    RoscDecoder.decode_bundle ⟨0,
      ([OscPacket.message ⟨"/tuio/2Dcur", [.string "source", .string "A"]⟩,
        OscPacket.message ⟨"/tuio/2Dcur", [.string "set", .int 1, .float 0,
          .float 0, .float 0, .float 0, .float 0]⟩
       ].insertIdx 2 (.message ⟨"/tuio/2Dcur", [.string "fseq", .int 1]⟩)).insertIdx 1
         (.message ⟨"/tuio/2Dcur", .string "alive" :: [1].map OscType.int⟩)⟩ =
      .ok { tuio_type := .cursor, source := "A", alive := [1],
            set := some (.cursor [⟨1, 0, 0, 0, 0, 0⟩]), fseq := 1 } :=
  decode_order_tolerant_after_source "A" [1] 1 1 0 0 0 0 0 0 1 2
    (by decide) (by decide)

/-- An 11-argument 2Dcur `set` message (the count the client wrongly
requires). -/
def curSet11Msg : OscMessage :=
  ⟨"/tuio/2Dcur", [.string "set", .int 1, .float 0, .float 0, .float 0, .float 0,
    .float 0, .float 0, .float 0, .float 0, .float 0]⟩

/-- A well-formed 13-argument 2Dblb `set` message. -/
def blbSet13Msg : OscMessage :=
  ⟨"/tuio/2Dblb", [.string "set", .int 1, .float 0, .float 0, .float 0, .float 0,
    .float 0, .float 0, .float 0, .float 0, .float 0, .float 0, .float 0]⟩

/-- A well-formed 11-argument 2Dobj `set` message. -/
def objSet11Msg : OscMessage :=
  ⟨"/tuio/2Dobj", [.string "set", .int 1, .int 2, .float 0, .float 0, .float 0,
    .float 0, .float 0, .float 0, .float 0, .float 0]⟩

/-- C4: evaluation at the failing inputs.  The decoder accepts the
7-argument 2Dcur `set` message (the schema the library's own encoder
emits), but `Client::process_osc_message` rejects that very message with
`MissingArguments`, accepts an 11-argument 2Dcur `set` instead, and
rejects the well-formed 13-argument 2Dblb `set`; only the 2Dobj branch
checks the schema count (11). -/
theorem client_set_arg_count_mismatch :
    RoscDecoder.decode_bundle
        ⟨0, [.message cxSourceMsg, .message cxSetMsg, .message cxFseqMsg]⟩ =
      .ok { tuio_type := .cursor, source := "A", alive := [],
            set := some (.cursor [⟨1, 0, 0, 0, 0, 0⟩]), fseq := 1 } ∧
    Client.process_osc_message 0 testClientState cxSetMsg =
      .err (.missingArguments cxSetMsg) ∧
    Client.process_osc_message 0 testClientState curSet11Msg =
      .ok { testClientState with frame_cursors := [⟨1, 0, 0, 0, 0, 0⟩] } [] ∧
    Client.process_osc_message 0 testClientState blbSet13Msg =
      .err (.missingArguments blbSet13Msg) ∧
    Client.process_osc_message 0 testClientState objSet11Msg =
      .ok { testClientState with frame_objects := [⟨1, 2, 0, 0, 0, 0, 0, 0, 0, 0⟩] } [] :=
  ⟨rfl, rfl, rfl, rfl, rfl⟩

/-- Looking up a source right after `entry(name).or_default()` always
succeeds, yielding the previous collection or a fresh default one. -/
theorem sourceLookup_entryOrDefault (l : List (String × SourceCollection)) (k : String) :
    sourceLookup (sourceEntryOrDefault l k) k =
      some ((sourceLookup l k).getD SourceCollection.default) := by
  unfold sourceLookup sourceEntryOrDefault
  cases h : l.find? (fun kv => kv.1 == k) with
  | some v => simp [h]
  | none => simp [h, List.find?_append, List.find?]

/-- Rejecting an `fseq` message leaves the client state unchanged and
dispatches nothing (2Dobj branch). -/
theorem process_obj_fseq_rejected (now : F32) (s : ClientState) (f : Int)
    (h1 : f < s.current_frame) (h2 : s.current_frame - f ≤ 100) :
    Client.process_osc_message now s ⟨"/tuio/2Dobj", [.string "fseq", .int f]⟩ =
      .ok s [] := by
  have hu := update_frame_rejects now s f h1 h2
  simp [Client.process_osc_message, hu]

/-- A concrete object held by source "S" in the counterexample state. -/
def cxClientObject : Object := Object.new 0 7 3 ⟨0, 0⟩ 0

/-- A concrete client state at frame 50 with one object (session id 7)
under source "S". -/
def cxClientState : ClientState :=
  { current_frame := 50
    current_time := 0
    frame_objects := []
    frame_cursors := []
    frame_blobs := []
    source_list := [("S", { SourceCollection.default with object_map := [(7, cxClientObject)] })]
    source_name := "X" }

/-- C2 counterexample: a 2Dobj bundle whose `fseq = 40` is rejected by
frame arbitration (client is at frame 50) still removes object 7 from the
per-source map — its `alive` message is applied before arbitration runs —
and dispatches a Remove notification for it. -/
theorem client_rejected_frame_cx :
    Client.process_osc_packet 0 cxClientState (.bundle 0
      [.message ⟨"/tuio/2Dobj", [.string "source", .string "S"]⟩,
       .message ⟨"/tuio/2Dobj", [.string "alive"]⟩,
       .message ⟨"/tuio/2Dobj", [.string "fseq", .int 40]⟩]) =
      .ok { cxClientState with
              source_name := "S"
              source_list := [("S", SourceCollection.default)] }
        [.removeObjects [7]] ∧
    ({ cxClientState with
         source_name := "S"
         source_list := [("S", SourceCollection.default)] } ≠ cxClientState) ∧
    [DispatchEvent.removeObjects [7]] ≠ ([] : List DispatchEvent) := by
  refine ⟨?_, by decide, by decide⟩
  simp [Client.process_osc_packet, Client.process_packets, Client.process_osc_message,
    Client.set_source_name, Client.update_frame, try_unwrap_source_name,
    OscType.asString, OscType.asInt, sourceEntryOrDefault, sourceLookup, sourceUpdate,
    retain_by_ids, cxClientState, cxClientObject, SourceCollection.default,
    List.find?, Object.new]

/-- Processing a 2Dobj `source` message updates the source bookkeeping and
dispatches nothing. -/
theorem process_obj_source (now : F32) (s : ClientState) (S : String) :
    Client.process_osc_message now s ⟨"/tuio/2Dobj", [.string "source", .string S]⟩ =
      .ok (Client.set_source_name s S) [] := by
  simp [Client.process_osc_message, try_unwrap_source_name, OscType.asString]

/-- Processing a 2Dobj `alive` message applies the removals immediately
(before any frame arbitration) and dispatches the Remove notification. -/
theorem process_obj_alive (now : F32) (s : ClientState) (ids : List Int) :
    Client.process_osc_message now s
        ⟨"/tuio/2Dobj", .string "alive" :: ids.map OscType.int⟩ =
      (match sourceLookup s.source_list s.source_name with
       | none => .panicked
       | some col =>
         let source_list := sourceUpdate s.source_list s.source_name
           (fun c => { c with object_map := (retain_by_ids col.object_map ids).1 })
         .ok { s with source_list }
           [.removeObjects (retain_by_ids col.object_map ids).2]) := by
  cases h : sourceLookup s.source_list s.source_name <;>
    simp [Client.process_osc_message, h, filterMap_asInt_int, filterMap_asInt_comp_int,
      retain_by_ids]

/-- Processing a well-formed (11-argument) 2Dobj `set` message only
buffers the record; the maps are untouched and nothing is dispatched. -/
theorem process_obj_set (now : F32) (s : ClientState) (sid cid : Int)
    (x y a vx vy rs ac ra : F32) :
    Client.process_osc_message now s
        ⟨"/tuio/2Dobj", [.string "set", .int sid, .int cid, .float x, .float y,
          .float a, .float vx, .float vy, .float rs, .float ac, .float ra]⟩ =
      .ok { s with frame_objects :=
              s.frame_objects ++ [⟨sid, cid, x, y, a, vx, vy, rs, ac, ra⟩] } [] := by
  simp [Client.process_osc_message, try_unwrap_object_args, argInt, argFloat, argAt,
    OscType.asInt, OscType.asFloat, bind, Except.bind, pure, Except.pure]

/-- C2 (amended): when a 2Dobj bundle's `fseq` is rejected by frame
arbitration, the buffered `set` records are not applied (no New/Update
notification, and the records stay buffered in `frame_objects`), and
`current_frame` and `current_time` are unchanged; but the removals
commanded by the bundle's `alive` message have already been applied to the
per-source map — with a Remove notification dispatched — before
arbitration ran. -/
theorem client_rejected_frame_partial_effect (now tt : F32) (s : ClientState)
    (S : String) (ids : List Int) (f sid cid : Int) (x y a vx vy rs ac ra : F32)
    (h1 : f < s.current_frame) (h2 : s.current_frame - f ≤ 100) :
    Client.process_osc_packet now s (.bundle tt
      [.message ⟨"/tuio/2Dobj", [.string "source", .string S]⟩,
       .message ⟨"/tuio/2Dobj", .string "alive" :: ids.map OscType.int⟩,
       .message ⟨"/tuio/2Dobj", [.string "set", .int sid, .int cid, .float x, .float y,
          .float a, .float vx, .float vy, .float rs, .float ac, .float ra]⟩,
       .message ⟨"/tuio/2Dobj", [.string "fseq", .int f]⟩]) =
      .ok { s with
              source_name := S
              source_list := sourceUpdate (sourceEntryOrDefault s.source_list S) S
                (fun c => { c with object_map :=
                  (retain_by_ids ((sourceLookup s.source_list S).getD
                    SourceCollection.default).object_map ids).1 })
              frame_objects := s.frame_objects ++
                [⟨sid, cid, x, y, a, vx, vy, rs, ac, ra⟩] }
        [.removeObjects (retain_by_ids ((sourceLookup s.source_list S).getD
            SourceCollection.default).object_map ids).2] := by
  simp only [Client.process_osc_packet, Client.process_packets, process_obj_source,
    process_obj_alive, process_obj_set, Client.set_source_name,
    sourceLookup_entryOrDefault]
  rw [process_obj_fseq_rejected now
    { s with
        source_name := S
        source_list := sourceUpdate (sourceEntryOrDefault s.source_list S) S
          (fun c => { c with object_map :=
            (retain_by_ids ((sourceLookup s.source_list S).getD
              SourceCollection.default).object_map ids).1 })
        frame_objects := s.frame_objects ++ [⟨sid, cid, x, y, a, vx, vy, rs, ac, ra⟩] }
    f h1 h2]
  simp

/-- C2 witness: the concrete rejected bundle (client at frame 50, incoming
fseq 40 with an empty alive list and one buffered set record). -/
theorem client_rejected_frame_partial_effect_witness :
    Client.process_osc_packet 0 cxClientState (.bundle 0
      [.message ⟨"/tuio/2Dobj", [.string "source", .string "S"]⟩,
       .message ⟨"/tuio/2Dobj", .string "alive" :: ([] : List Int).map OscType.int⟩,
       .message ⟨"/tuio/2Dobj", [.string "set", .int 9, .int 3, .float 0, .float 0,
          .float 0, .float 0, .float 0, .float 0, .float 0, .float 0]⟩,
       .message ⟨"/tuio/2Dobj", [.string "fseq", .int 40]⟩]) =
      .ok { cxClientState with
              source_name := "S"
              source_list := [("S", SourceCollection.default)]
              frame_objects := [⟨9, 3, 0, 0, 0, 0, 0, 0, 0, 0⟩] }
        [.removeObjects [7]] :=
  client_rejected_frame_partial_effect 0 0 cxClientState "S" [] 40 9 3 0 0 0 0 0 0 0 0
    (by decide) (by decide)
